import Mathlib

/-!
# Verification of the training orchestration in `train.py`

A shallow embedding of the training orchestrator of the Deep-Residual-Matting
repository (`train.py`): the epoch loop, the per-batch update sequence, the
best-score / stall-counter bookkeeping and the checkpointing calls.

Modelling conventions:
* Python floats used for losses and scores are modelled by `ℚ`; the value
  `float('inf')` used to initialize `best_loss` is modelled by `none` in an
  `Option ℚ`, interpreted into `WithTop ℚ` (where `none` is `⊤`) when an
  order-theoretic statement is made.
* Tensors are modelled as flat lists of rationals; device placement and
  reshaping (`.to(device)`, `.reshape`) do not change the values fed to the
  collaborators and are identity operations in the embedding.
* External collaborators (the model forward pass plus `alpha_prediction_loss`,
  autograd's backward pass, the Adam step, and the evaluation procedure
  `test`) are opaque functions supplied in a configuration record, exactly as
  the spec treats them: fixed interfaces whose internals are out of scope.
* The event sink (`SummaryWriter`, the logger, `print`) is write-only and
  ignored; the per-batch sequencing of the mutating operations is recorded in
  an explicit event trace so that ordering claims can be stated.
-/

/-- Model parameters (the `model` / `optimizer` parameter blob), flattened. -/
abbrev Params := List ℚ

/-- One training batch as produced by the data loader: the 4-channel image and
the 2-channel alpha label, flattened (reshaping in `train.py` lines 106-112 is
value-preserving). -/
structure BatchData where
  img : List ℚ
  alpha_label : List ℚ
deriving Repr, DecidableEq

/-- Modelled from the spec: `utils.AverageMeter` is not under `src/` (only its
caller `train.py` is). Per the spec, MetricAccumulator: `update(value)` appends
one observation, `average` returns the running mean of all observations since
the last reset, `reset()` clears state. Fields mirror the usual
val/sum/count/avg layout that `train.py` line 135 reads (`loss.val`,
`loss.avg`). -/
structure AverageMeter where
  val : ℚ
  sum : ℚ
  count : ℕ
  avg : ℚ
deriving Repr, DecidableEq

/-- A freshly constructed meter (`AverageMeter()` at `train.py` line 101). -/
def AverageMeter.init : AverageMeter := ⟨0, 0, 0, 0⟩

/-- Modelled from the spec: clears the accumulator state. -/
def AverageMeter.reset (_ : AverageMeter) : AverageMeter := AverageMeter.init

/-- Modelled from the spec: append one observation and recompute the running
mean over the observations since the last reset. -/
def AverageMeter.update (m : AverageMeter) (v : ℚ) : AverageMeter :=
  let sum := m.sum + v
  let count := m.count + 1
  { val := v, sum := sum, count := count, avg := sum / count }

/-- Clamp one gradient value to the interval `[-grad_clip, grad_clip]`. -/
def clampVal (grad_clip g : ℚ) : ℚ := max (-grad_clip) (min g grad_clip)

/-- Modelled from the spec: `utils.clip_gradient` is not under `src/` (only
its call site `train.py` line 123 is). Per the spec, GradientLimiter clamps
each parameter's accumulated gradient in place so that no individual gradient
value exceeds the configured bound — a fixed scalar threshold, not a
global-norm rescale. -/
def clip_gradient (grad_clip : ℚ) (grads : List ℚ) : List ℚ :=
  grads.map (clampVal grad_clip)

/-- `x < b` where `b` models a Python float that may be `inf` (`none`).
Mirrors `mse_loss < best_loss` at `train.py` line 86. -/
def ltBest (x : ℚ) : Option ℚ → Bool
  | none => true
  | some b => decide (x < b)

/-- `min(x, b)` where `b` may be `inf` (`none`). Mirrors
`min(mse_loss, best_loss)` at `train.py` line 87. -/
def minBest (x : ℚ) : Option ℚ → Option ℚ
  | none => some x
  | some b => some (min x b)

/-- Interpret an optionally-infinite score into `WithTop ℚ` (the order in
which the spec's monotonicity and strictness statements live). -/
def bestVal : Option ℚ → WithTop ℚ
  | none => ⊤
  | some q => (q : WithTop ℚ)

/-- The checkpoint record written by `save_checkpoint`: epoch index, stall
counter, best score and the model/optimizer parameter blob (the spec's
TrainingState). -/
structure SavedCheckpoint where
  epoch : ℕ
  epochs_since_improvement : ℕ
  best_loss : Option ℚ
  params : Params
deriving Repr, DecidableEq

/-- The durable checkpoint store: a "latest" slot, a "best" slot, and the log
of save invocations (state written, `is_best` flag passed). -/
structure CheckStore where
  latest : Option SavedCheckpoint
  best : Option SavedCheckpoint
  saves : List (SavedCheckpoint × Bool)
deriving Repr, DecidableEq

/-- The store before any save has happened. -/
def CheckStore.empty : CheckStore := ⟨none, none, []⟩

/-- Modelled from the spec: `utils.save_checkpoint` is not under `src/` (only
its call site `train.py` line 95 is). Per the spec, CheckpointStore.save
writes the full TrainingState to the "latest" slot unconditionally and
additionally writes it to the "best" slot only when `is_best` is true. -/
def save_checkpoint (epoch : ℕ) (epochs_since_improvement : ℕ) (params : Params)
    (best_loss : Option ℚ) (is_best : Bool) (store : CheckStore) : CheckStore :=
  let st : SavedCheckpoint := ⟨epoch, epochs_since_improvement, best_loss, params⟩
  { latest := some st
    best := if is_best then some st else store.best
    saves := store.saves ++ [(st, is_best)] }

/-- The per-batch mutating operations of the inner training loop
(`train.py` lines 119-129), in the order the code performs them. -/
inductive BEvent
  | zeroGrad
  | backward
  | clipGrad
  | optStep
  | meterUpdate
deriving Repr, DecidableEq, BEq

/-- The configuration and external collaborators of a run: the command-line
surface (`args.lr` is inside `optStep`, `args.batch_size` inside `batches`,
`args.end_epoch`), the config constants (`grad_clip`), and the opaque
collaborator functions. -/
structure Config where
  /-- model forward pass + `alpha_prediction_loss` (lines 111-116). -/
  forwardLoss : Params → BatchData → ℚ
  /-- autograd: the gradients `loss.backward()` accumulates (line 120). -/
  backwardGrad : Params → BatchData → List ℚ
  /-- `optimizer.step()`: new parameters from parameters and gradients. -/
  optStep : Params → List ℚ → Params
  /-- `test(model)` (line 77): the evaluation collaborator, a pure function of
  the model returning `(sad_loss, mse_loss)`. Modelled from the spec:
  `test.py` is not under `src/`; the spec declares it a pure function of model
  weights and a fixed evaluation set with no side effects on training state. -/
  test : Params → ℚ × ℚ
  /-- `grad_clip` from `config.py`. -/
  grad_clip : ℚ
  /-- the training data loader: the batch sequence of each epoch
  (re-shuffled per epoch, hence a function of the epoch index). -/
  batches : ℕ → List BatchData
  /-- `args.end_epoch`: the terminal epoch of the `range` loop (line 55). -/
  end_epoch : ℕ
  /-- the freshly initialized `DeepLab` parameters (line 26). -/
  freshParams : Params

/-- The state threaded through the inner per-batch loop of `train`:
parameters, the optimizer's gradient buffers, the loss meter and the event
trace recording the order of the mutating operations. -/
structure TrainSt where
  params : Params
  grads : List ℚ
  meter : AverageMeter
  trace : List BEvent
deriving Repr, DecidableEq

/-- One iteration of the batch loop of `train` (`train.py` lines 104-136):
forward + loss (lines 111-116), `optimizer.zero_grad()` (119),
`loss.backward()` (120), `clip_gradient(optimizer, grad_clip)` (123),
`optimizer.step()` (126), `losses.update(loss.item())` (129). Logging
(lines 133-136) goes to the write-only sink and is not modelled. -/
def batchStep (cfg : Config) (b : BatchData) (s : TrainSt) : TrainSt :=
  let loss := cfg.forwardLoss s.params b
  -- optimizer.zero_grad()
  let s := { s with grads := s.grads.map (fun _ => 0), trace := s.trace ++ [BEvent.zeroGrad] }
  -- loss.backward(): accumulate the batch gradients onto the zeroed buffers
  let s := { s with grads := cfg.backwardGrad s.params b, trace := s.trace ++ [BEvent.backward] }
  -- clip_gradient(optimizer, grad_clip)
  let s := { s with grads := clip_gradient cfg.grad_clip s.grads, trace := s.trace ++ [BEvent.clipGrad] }
  -- optimizer.step()
  let s := { s with params := cfg.optStep s.params s.grads, trace := s.trace ++ [BEvent.optStep] }
  -- losses.update(loss.item())
  { s with meter := s.meter.update loss, trace := s.trace ++ [BEvent.meterUpdate] }

/-- One epoch's training (`train` in `train.py` lines 98-138): fold the batch
loop over the loader's batches starting from a fresh `AverageMeter`, and
return `losses.avg` together with the final state. -/
def train (cfg : Config) (batches : List BatchData) (params : Params) : ℚ × TrainSt :=
  let s0 : TrainSt := ⟨params, [], AverageMeter.init, []⟩
  let sF := batches.foldl (fun s b => batchStep cfg b s) s0
  (sF.meter.avg, sF)

/-- The run-level state threaded through the epoch loop of `train_net`:
the parameter blob, `best_loss`, `epochs_since_improvement`, the checkpoint
store, plus observation logs (epoch indices executed, evaluation results
observed, accumulated batch-event trace) used to state temporal claims. -/
structure RunState where
  params : Params
  best : Option ℚ
  stall : ℕ
  store : CheckStore
  epochsRun : List ℕ
  evalLog : List (ℚ × ℚ)
  batchEvents : List BEvent
deriving Repr, DecidableEq

/-- One iteration of the epoch loop of `train_net` (`train.py` lines 55-95):
train one epoch (line 59), evaluate (line 77), compute
`is_best = mse_loss < best_loss` (86), `best_loss = min(mse_loss, best_loss)`
(87), update `epochs_since_improvement` (88-92), and call `save_checkpoint`
with the updated values and `is_best` (95). Scalar-event emission
(lines 67, 78-79) and status printing go to the write-only sink. -/
def epochBody (cfg : Config) (epoch : ℕ) (s : RunState) : RunState :=
  let t := train cfg (cfg.batches epoch) s.params
  let params' := (t.2).params
  let ev := cfg.test params'
  let mse_loss := ev.2
  let is_best := ltBest mse_loss s.best
  let best' := minBest mse_loss s.best
  let stall' := if is_best then 0 else s.stall + 1
  let store' := save_checkpoint epoch stall' params' best' is_best s.store
  { params := params'
    best := best'
    stall := stall'
    store := store'
    epochsRun := s.epochsRun ++ [epoch]
    evalLog := s.evalLog ++ [ev]
    batchEvents := s.batchEvents ++ (t.2).trace }

/-- The epoch loop `for epoch in range(start_epoch, args.end_epoch)`
(`train.py` line 55): fold `epochBody` over the epoch indices
`start_epoch, ..., end_epoch - 1`. -/
def runLoop (cfg : Config) (start_epoch : ℕ) (s : RunState) : RunState :=
  (List.range' start_epoch (cfg.end_epoch - start_epoch)).foldl
    (fun s e => epochBody cfg e s) s

/-- The result of the initialize-or-restore block (`train.py` lines 18-37). -/
structure InitResult where
  start_epoch : ℕ
  epochs_since_improvement : ℕ
  best_loss : Option ℚ
  params : Params
deriving Repr, DecidableEq

/-- The initialize / load-checkpoint block of `train_net` (`train.py`
lines 18-37). With no checkpoint: `start_epoch = 0`,
`epochs_since_improvement = 0`, `best_loss = float('inf')` (line 20, `none`
here), fresh model. With a checkpoint: `start_epoch = checkpoint['epoch'] + 1`
(line 33), `epochs_since_improvement = checkpoint['epochs_since_improvement']`
(line 34) and the saved model/optimizer (lines 35-37); `best_loss` is NOT
reassigned in this branch and keeps its line-20 value `float('inf')`. -/
def initFromCheckpoint (freshParams : Params) : Option SavedCheckpoint → InitResult
  | none => ⟨0, 0, none, freshParams⟩
  | some c => ⟨c.epoch + 1, c.epochs_since_improvement, none, c.params⟩

/-- `train_net` (`train.py` lines 15-95): initialize or restore, then run the
epoch loop up to `args.end_epoch`. -/
def train_net (cfg : Config) (checkpoint : Option SavedCheckpoint) : RunState :=
  let ini := initFromCheckpoint cfg.freshParams checkpoint
  runLoop cfg ini.start_epoch
    { params := ini.params
      best := ini.best_loss
      stall := ini.epochs_since_improvement
      store := CheckStore.empty
      epochsRun := []
      evalLog := []
      batchEvents := [] }

/-- The order of the per-batch mutating operations as `train.py` lines
119-129 perform them. -/
def batchEventOrder : List BEvent :=
  [BEvent.zeroGrad, BEvent.backward, BEvent.clipGrad, BEvent.optStep, BEvent.meterUpdate]

/-- The sequence of loss values `train` feeds to its `AverageMeter`, batch by
batch; each loss is computed from the parameters current at that batch. -/
def lossSeq (cfg : Config) : List BatchData → TrainSt → List ℚ
  | [], _ => []
  | b :: bs, s => cfg.forwardLoss s.params b :: lossSeq cfg bs (batchStep cfg b s)

/-- A concrete configuration used to instantiate hypotheses of the theorems
below on explicit inputs. -/
def cfg0 : Config where
  forwardLoss := fun _ _ => 2
  backwardGrad := fun _ _ => [3]
  optStep := fun p _ => p
  test := fun _ => (0, 1)
  grad_clip := 1
  batches := fun _ => [⟨[], []⟩]
  end_epoch := 2
  freshParams := []

/-- A concrete saved checkpoint used to instantiate the theorems below on
explicit inputs. -/
def ck0 : SavedCheckpoint := ⟨3, 2, some 5, []⟩

/-! ## Helper lemmas -/

/-- `ltBest` agrees with the strict order of `WithTop ℚ` under `bestVal`. -/
theorem ltBest_iff (x : ℚ) (b : Option ℚ) :
    ltBest x b = true ↔ (x : WithTop ℚ) < bestVal b := by
  cases b with
  | none => simp [ltBest, bestVal, WithTop.coe_lt_top]
  | some q => simp [ltBest, bestVal, WithTop.coe_lt_coe]

/-- `minBest` never increases the tracked best score. -/
theorem bestVal_minBest_le (x : ℚ) (b : Option ℚ) :
    bestVal (minBest x b) ≤ bestVal b := by
  cases b with
  | none => exact le_top
  | some q => simp [minBest, bestVal, WithTop.coe_le_coe]

/-- Folding the epoch body over a list of epoch indices appends exactly those
indices to the executed-epochs log. -/
theorem foldl_epochBody_epochsRun (cfg : Config) :
    ∀ (l : List ℕ) (s : RunState),
      ((l.foldl (fun s e => epochBody cfg e s) s).epochsRun) = s.epochsRun ++ l := by
  intro l
  induction l with
  | nil => intro s; simp
  | cons e l ih =>
      intro s
      rw [List.foldl_cons, ih]
      simp [epochBody]

/-- Folding the epoch body never increases the tracked best score. -/
theorem foldl_epochBody_best_le (cfg : Config) :
    ∀ (l : List ℕ) (s : RunState),
      bestVal ((l.foldl (fun s e => epochBody cfg e s) s).best) ≤ bestVal s.best := by
  intro l
  induction l with
  | nil => intro s; simp
  | cons e l ih =>
      intro s
      exact le_trans (ih (epochBody cfg e s)) (bestVal_minBest_le _ _)

/-- The Boolean improvement test inside an `if` agrees with the `WithTop ℚ`
strict-order test. -/
theorem ite_ltBest (x : ℚ) (b : Option ℚ) (n : ℕ) :
    (if ltBest x b then 0 else n + 1) =
      if (x : WithTop ℚ) < bestVal b then 0 else n + 1 := by
  by_cases h : (x : WithTop ℚ) < bestVal b
  · simp [h, (ltBest_iff x b).2 h]
  · have h2 : ltBest x b = false := by
      cases hb : ltBest x b
      · rfl
      · exact absurd ((ltBest_iff x b).1 hb) h
    simp [h, h2]

/-- Folding `update` accumulates the sum and the count of the observations. -/
theorem foldl_update_sum_count :
    ∀ (l : List ℚ) (m : AverageMeter),
      (l.foldl AverageMeter.update m).sum = m.sum + l.sum ∧
      (l.foldl AverageMeter.update m).count = m.count + l.length := by
  intro l
  induction l with
  | nil => intro m; simp
  | cons v l ih =>
      intro m
      have h := ih (m.update v)
      refine ⟨?_, ?_⟩
      · rw [List.foldl_cons, h.1]; simp [AverageMeter.update]; ring
      · rw [List.foldl_cons, h.2]; simp [AverageMeter.update]; omega

/-- After at least one `update`, the stored average is the stored sum divided
by the stored count. -/
theorem foldl_update_avg :
    ∀ (l : List ℚ) (v : ℚ) (m : AverageMeter),
      ((v :: l).foldl AverageMeter.update m).avg =
        ((v :: l).foldl AverageMeter.update m).sum /
          (((v :: l).foldl AverageMeter.update m).count : ℚ) := by
  intro l
  induction l with
  | nil => intro v m; simp [AverageMeter.update]
  | cons w l ih =>
      intro v m
      simpa using ih w (m.update v)

/-- The meter resulting from the batch loop is the fold of `update` over the
loss values of `lossSeq`. -/
theorem foldl_batchStep_meter (cfg : Config) :
    ∀ (bs : List BatchData) (s : TrainSt),
      ((bs.foldl (fun s b => batchStep cfg b s) s).meter) =
        (lossSeq cfg bs s).foldl AverageMeter.update s.meter := by
  intro bs
  induction bs with
  | nil => intro s; simp [lossSeq]
  | cons b bs ih =>
      intro s
      rw [List.foldl_cons, ih]
      simp [lossSeq, batchStep]

/-! ## Claim theorems -/

/-- C1 (counterexample): on the concrete checkpoint `ck0` whose saved
`best_loss` is `5`, the restore block of `train_net` yields `best_loss = none`
(`float('inf')`), not the saved value: the saved best score is NOT reused for
subsequent improvement comparisons. -/
theorem C1_restore_best_not_reused_cex :
    ck0.best_loss = some 5 ∧
    (initFromCheckpoint [] (some ck0)).best_loss = none ∧
    (none : Option ℚ) ≠ some 5 :=
  ⟨rfl, rfl, by decide⟩

/-- C1 (amended): restoring resumes the epoch loop at `loaded.epoch + 1` and
reuses the saved stall counter `epochs_since_improvement`, but `best_loss` is
re-initialized to `float('inf')` (`none`) instead of the saved best score. -/
theorem C1_restore_resumes_with_reset_best (cfg : Config) (c : SavedCheckpoint) :
    initFromCheckpoint cfg.freshParams (some c) =
      ⟨c.epoch + 1, c.epochs_since_improvement, none, c.params⟩ ∧
    train_net cfg (some c) = runLoop cfg (c.epoch + 1)
      { params := c.params, best := none, stall := c.epochs_since_improvement,
        store := CheckStore.empty, epochsRun := [], evalLog := [],
        batchEvents := [] } ∧
    (train_net cfg (some c)).epochsRun =
      List.range' (c.epoch + 1) (cfg.end_epoch - (c.epoch + 1)) := by
  refine ⟨rfl, rfl, ?_⟩
  simpa using foldl_epochBody_epochsRun cfg
    (List.range' (c.epoch + 1) (cfg.end_epoch - (c.epoch + 1)))
    { params := c.params, best := none, stall := c.epochs_since_improvement,
      store := CheckStore.empty, epochsRun := [], evalLog := [],
      batchEvents := [] }

/-- C2: after an epoch's checkpointing phase, the stall counter is `0` exactly
when that epoch's MSE evaluation score is strictly below the best score held
before the epoch, and otherwise it is the previous stall counter plus one. -/
theorem C2_stall_counter_update (cfg : Config) (e : ℕ) (s : RunState) :
    (epochBody cfg e s).stall =
      if ((cfg.test (train cfg (cfg.batches e) s.params).2.params).2 : WithTop ℚ)
          < bestVal s.best
      then 0 else s.stall + 1 := by
  have h := ite_ltBest ((cfg.test (train cfg (cfg.batches e) s.params).2.params).2)
    s.best s.stall
  simpa [epochBody] using h

/-- C3: the tracked best score never increases: one epoch's checkpointing
update can only lower it, and a whole run from any starting state can only
lower it, for every configuration (hence every sequence of evaluation
scores). -/
theorem C3_best_score_nonincreasing (cfg : Config) (e start_epoch : ℕ) (s : RunState) :
    bestVal (epochBody cfg e s).best ≤ bestVal s.best ∧
    bestVal (runLoop cfg start_epoch s).best ≤ bestVal s.best :=
  ⟨bestVal_minBest_le _ _,
   foldl_epochBody_best_le cfg
     (List.range' start_epoch (cfg.end_epoch - start_epoch)) s⟩

/-- C4: every epoch computes `is_best` as a strict comparison of the epoch's
MSE score against the previous best (equality does not count as improvement),
invokes the checkpoint save exactly once with that flag (the save log grows by
exactly this one record), overwrites the "latest" slot unconditionally with
this epoch's state, and overwrites the "best" slot exactly when `is_best`. -/
theorem C4_checkpoint_write_rule (cfg : Config) (e : ℕ) (s : RunState) :
    let params' := (train cfg (cfg.batches e) s.params).2.params
    let mse := (cfg.test params').2
    let is_best := ltBest mse s.best
    let ck : SavedCheckpoint :=
      ⟨e, if is_best then 0 else s.stall + 1, minBest mse s.best, params'⟩
    (is_best = true ↔ (mse : WithTop ℚ) < bestVal s.best) ∧
    (epochBody cfg e s).store.saves = s.store.saves ++ [(ck, is_best)] ∧
    (epochBody cfg e s).store.latest = some ck ∧
    (epochBody cfg e s).store.best =
      (if is_best then some ck else s.store.best) := by
  refine ⟨ltBest_iff _ _, ?_, ?_, ?_⟩ <;> simp [epochBody, save_checkpoint]

/-- C5: the epoch loop executes exactly the epochs from the start epoch up to
but excluding the configured terminal epoch, in order, for every
configuration and every starting state — in particular no matter how large
the stall counter `s.stall` is or becomes. -/
theorem C5_loop_runs_every_epoch (cfg : Config) (start_epoch : ℕ) (s : RunState) :
    (runLoop cfg start_epoch s).epochsRun =
      s.epochsRun ++ List.range' start_epoch (cfg.end_epoch - start_epoch) :=
  foldl_epochBody_epochsRun cfg _ s

/-- C6: each training batch performs, in this order: clear gradients, backward
pass, gradient clipping, optimizer step, meter update — clipping comes
strictly after the backward pass and strictly before the optimizer step. -/
theorem C6_batch_update_order (cfg : Config) (b : BatchData) (s : TrainSt) :
    (batchStep cfg b s).trace = s.trace ++ batchEventOrder ∧
    batchEventOrder.indexOf BEvent.zeroGrad
      < batchEventOrder.indexOf BEvent.backward ∧
    batchEventOrder.indexOf BEvent.backward
      < batchEventOrder.indexOf BEvent.clipGrad ∧
    batchEventOrder.indexOf BEvent.clipGrad
      < batchEventOrder.indexOf BEvent.optStep := by
  refine ⟨?_, by decide, by decide, by decide⟩
  simp [batchStep, batchEventOrder]

/-- C7: the gradient clipper clamps each individual gradient value against the
scalar threshold (an element-wise map, not a global-norm rescale): with
threshold `1` an input value `3` is clipped to magnitude at most `1`; a value
already within the bound is left unchanged; and with a nonnegative threshold
every clipped value has magnitude at most the threshold. -/
theorem C7_clip_gradient_clamps :
    (∀ (c : ℚ) (gs : List ℚ), clip_gradient c gs = gs.map (clampVal c)) ∧
    |clampVal 1 3| ≤ 1 ∧
    (∀ (c g : ℚ), |g| ≤ c → clampVal c g = g) ∧
    (∀ (c : ℚ) (gs : List ℚ) (x : ℚ),
      0 ≤ c → x ∈ clip_gradient c gs → |x| ≤ c) := by
  refine ⟨fun _ _ => rfl, by norm_num [clampVal], ?_, ?_⟩
  · intro c g h
    obtain ⟨h1, h2⟩ := abs_le.1 h
    rw [clampVal, min_eq_left h2, max_eq_right h1]
  · intro c gs x hc hx
    simp only [clip_gradient, List.mem_map] at hx
    obtain ⟨g, -, rfl⟩ := hx
    refine abs_le.2 ⟨le_max_left _ _, max_le (by linarith) (min_le_right _ _)⟩

/-- C7 witness: the clipper's within-bound and bound conjuncts instantiated on
explicit inputs. -/
theorem C7_clip_gradient_clamps_witness :
    clampVal 1 (1 / 2) = 1 / 2 ∧ |clampVal 1 3| ≤ 1 :=
  ⟨C7_clip_gradient_clamps.2.2.1 1 (1 / 2) (by rw [abs_le]; norm_num),
   C7_clip_gradient_clamps.2.2.2 1 [3] (clampVal 1 3) (by norm_num)
     (by simp [clip_gradient])⟩

/-- C8: the meter's average is the running mean of the values fed to `update`
since the last reset — `[2, 4, 6]` averages to `4`, a reset followed by
`update 5` averages to `5`, in general any nonempty update sequence averages
to its sum over its length — and `train` returns the fold of the meter over
the per-batch loss values it produced. -/
theorem C8_meter_running_mean :
    ((([2, 4, 6] : List ℚ).foldl AverageMeter.update AverageMeter.init).avg = 4) ∧
    (∀ m : AverageMeter, ((m.reset).update 5).avg = 5) ∧
    (∀ (v : ℚ) (l : List ℚ),
      ((v :: l).foldl AverageMeter.update AverageMeter.init).avg =
        (v :: l).sum / (((v :: l).length : ℕ) : ℚ)) ∧
    (∀ (cfg : Config) (bs : List BatchData) (p : Params),
      (train cfg bs p).1 =
        ((lossSeq cfg bs ⟨p, [], AverageMeter.init, []⟩).foldl
          AverageMeter.update AverageMeter.init).avg) := by
  refine ⟨by norm_num [AverageMeter.update, AverageMeter.init], ?_, ?_, ?_⟩
  · intro m
    norm_num [AverageMeter.reset, AverageMeter.init, AverageMeter.update]
  · intro v l
    rw [foldl_update_avg]
    have h := foldl_update_sum_count (v :: l) AverageMeter.init
    rw [h.1, h.2]
    simp [AverageMeter.init]
  · intro cfg bs p
    simp [train, foldl_batchStep_meter]

/-- C9: the per-epoch evaluation is a pure read of the model: the parameters
after an epoch are exactly those produced by the training phase (evaluation
changes neither them nor anything the training phase produced), and replacing
the evaluation collaborator by any other one changes neither the resulting
parameters, nor the epochs executed, nor the batch-level event trace — the
evaluation scores feed only the best-score/stall-count/checkpoint
bookkeeping. -/
theorem C9_evaluation_pure (cfg : Config) (t' : Params → ℚ × ℚ) (e : ℕ)
    (s : RunState) :
    (epochBody cfg e s).params = (train cfg (cfg.batches e) s.params).2.params ∧
    (epochBody { cfg with test := t' } e s).params = (epochBody cfg e s).params ∧
    (epochBody { cfg with test := t' } e s).epochsRun =
      (epochBody cfg e s).epochsRun ∧
    (epochBody { cfg with test := t' } e s).batchEvents =
      (epochBody cfg e s).batchEvents :=
  ⟨rfl, rfl, rfl, rfl⟩

/-- C10: when the start epoch is at least the configured terminal epoch (for
example after restoring a checkpoint whose `epoch + 1` already reaches it),
the epoch loop body never runs: the run's final state is the initial state
unchanged — no epoch executed, no batch event produced, no evaluation
observed, and the checkpoint store still empty. -/
theorem C10_no_work_when_start_ge_end (cfg : Config)
    (ck : Option SavedCheckpoint)
    (h : cfg.end_epoch ≤ (initFromCheckpoint cfg.freshParams ck).start_epoch) :
    train_net cfg ck =
      { params := (initFromCheckpoint cfg.freshParams ck).params
        best := (initFromCheckpoint cfg.freshParams ck).best_loss
        stall := (initFromCheckpoint cfg.freshParams ck).epochs_since_improvement
        store := CheckStore.empty
        epochsRun := []
        evalLog := []
        batchEvents := [] } := by
  simp [train_net, runLoop, Nat.sub_eq_zero_of_le h]

/-- C10 witness: with `cfg0` (terminal epoch 2) and the checkpoint `ck0`
(saved epoch 3, so start epoch 4), the run performs no work at all. -/
theorem C10_no_work_witness :
    cfg0.end_epoch ≤ (initFromCheckpoint cfg0.freshParams (some ck0)).start_epoch ∧
    train_net cfg0 (some ck0) =
      { params := (initFromCheckpoint cfg0.freshParams (some ck0)).params
        best := (initFromCheckpoint cfg0.freshParams (some ck0)).best_loss
        stall := (initFromCheckpoint cfg0.freshParams
          (some ck0)).epochs_since_improvement
        store := CheckStore.empty
        epochsRun := []
        evalLog := []
        batchEvents := [] } :=
  ⟨by decide, C10_no_work_when_start_ge_end cfg0 (some ck0) (by decide)⟩
